import Mathlib

/-!
Shallow embedding of the `RdsSnapshotExportPipelineStack` CDK stack
(`lib/rds-snapshot-export-pipeline-stack.ts`) and of the deployment
descriptor in `bin/cdk.ts`, together with proofs about the event
subscription resolution, the permission wiring, the Lambda environment
serialization and the Glue catalog database-name normalization.

CloudFormation identities that CDK resolves at deploy time (role ARNs,
bucket ARN, key ARN, topic ARN, account root principal ARN) are modelled
as an abstract record of strings threaded through the stack constructor,
mirroring the fact that the TypeScript code only ever references them as
opaque tokens (`role.roleArn`, `bucket.bucketArn`, ...).
-/

namespace RdsPipeline

/-- The `RdsEventId` string enum of the stack: the four RDS event codes the
pipeline recognizes. Each constructor carries its string value via
`RdsEventId.code`. -/
inductive RdsEventId where
  | DB_AUTOMATED_AURORA_SNAPSHOT_CREATED
  | DB_AUTOMATED_SNAPSHOT_CREATED
  | DB_MANUAL_SNAPSHOT_CREATED
  | DB_BACKUP_SNAPSHOT_FINISHED_COPY
deriving DecidableEq

/-- String value of each `RdsEventId` enum member. -/
def RdsEventId.code : RdsEventId → String
  | .DB_AUTOMATED_AURORA_SNAPSHOT_CREATED => "RDS-EVENT-0169"
  | .DB_AUTOMATED_SNAPSHOT_CREATED => "RDS-EVENT-0091"
  | .DB_MANUAL_SNAPSHOT_CREATED => "RDS-EVENT-0042"
  | .DB_BACKUP_SNAPSHOT_FINISHED_COPY => "RDS-EVENT-0197"

/-- The `RdsSnapshotType` string enum of the stack. -/
inductive RdsSnapshotType where
  | DB_AUTOMATED_SNAPSHOT
  | DB_BACKUP_SNAPSHOT
  | DB_MANUAL_SNAPSHOT
deriving DecidableEq

/-- String value of each `RdsSnapshotType` enum member. -/
def RdsSnapshotType.code : RdsSnapshotType → String
  | .DB_AUTOMATED_SNAPSHOT => "AUTOMATED"
  | .DB_BACKUP_SNAPSHOT => "BACKUP"
  | .DB_MANUAL_SNAPSHOT => "MANUAL"

/-- The `RdsSnapshot` interface: one trigger condition of the rule set. -/
structure RdsSnapshot where
  rdsEventId : RdsEventId
  rdsSnapshotType : RdsSnapshotType
deriving DecidableEq

/-- The `RdsSnapshotExportPipelineStackProps` interface: the deployment
descriptor. -/
structure RdsSnapshotExportPipelineStackProps where
  s3BucketName : String
  dbName : String
  rdsEvents : List RdsSnapshot
deriving DecidableEq

/-- Identities resolved by the cloud provider at deploy time; the stack code
treats all of them as opaque string tokens. -/
structure StackArns where
  accountRootArn : String
  bucketArn : String
  taskRoleArn : String
  lambdaRoleArn : String
  crawlerRoleArn : String
  keyArn : String
  topicArn : String
deriving DecidableEq

/-- One `CfnEventSubscription` resource, as configured by the stack. -/
structure SubscriptionSpec where
  logicalId : String
  snsTopicArn : String
  enabled : Bool
  eventCategories : List String
  sourceType : String
deriving DecidableEq

/-- The two conditional `CfnEventSubscription` declarations of the stack
(source lines 216-243).  The JavaScript truthiness test
`props.rdsEvents.find(p) ? A : B` is embedded as `if rdsEvents.any p then A
else B`: `find` returns a (truthy) element exactly when some element
satisfies `p`.  The first ternary creates the Aurora cluster subscription
when an `DB_AUTOMATED_AURORA_SNAPSHOT_CREATED` condition is present and
otherwise creates the `db-snapshot`/`creation` subscription; the second
ternary creates the backup-copy notification subscription when a
`DB_BACKUP_SNAPSHOT_FINISHED_COPY` condition is present and otherwise does
nothing (`: true`). -/
def eventSubscriptions (topicArn : String) (rdsEvents : List RdsSnapshot) :
    List SubscriptionSpec :=
  (if rdsEvents.any
      (fun rdsEvent => rdsEvent.rdsEventId == RdsEventId.DB_AUTOMATED_AURORA_SNAPSHOT_CREATED) then
    [{ logicalId := "RdsSnapshotEventNotification"
       snsTopicArn := topicArn
       enabled := true
       eventCategories := ["backup"]
       sourceType := "db-cluster-snapshot" }]
  else
    [{ logicalId := "RdsSnapshotEventNotification"
       snsTopicArn := topicArn
       enabled := true
       eventCategories := ["creation"]
       sourceType := "db-snapshot" }])
  ++
  (if rdsEvents.any
      (fun rdsEvent => rdsEvent.rdsEventId == RdsEventId.DB_BACKUP_SNAPSHOT_FINISHED_COPY) then
    [{ logicalId := "RdsBackupCopyEventNotification"
       snsTopicArn := topicArn
       enabled := true
       eventCategories := ["notification"]
       sourceType := "db-snapshot" }]
  else [])

/-- JavaScript stringification of an array of strings
(`Array.prototype.toString`): elements joined with `","`. -/
def jsArrayToString (elems : List String) : String :=
  String.intercalate "," elems

/-- The environment serialization expression the stack actually uses
(source lines 251, 252, 258): `new Array(xs).join()`.  `new Array(xs)`
with a single non-number argument is the one-element array `[xs]`, and
`join()` with no separator joins with `","` after stringifying each
element, so the whole expression is the `","`-join of the singleton outer
list whose sole element is the stringification of the inner list. -/
def newArrayWrapJoin (xs : List String) : String :=
  String.intercalate "," [jsArrayToString xs]

/-- Modelled from the spec: the straightforward serialization
`list.join(",")` that the spec says equals the wrapped expression
(comma-joined, index-aligned list entries). -/
def straightforwardJoin (xs : List String) : String :=
  String.intercalate "," xs

/-- A character matched by the regex class `[a-zA-Z0-9_]` of the
`databaseName` replacement (source line 275). -/
def isWordChar (c : Char) : Bool :=
  (decide ('a' ≤ c) && decide (c ≤ 'z')) ||
  (decide ('A' ≤ c) && decide (c ≤ 'Z')) ||
  (decide ('0' ≤ c) && decide (c ≤ '9')) ||
  (c == '_')

/-- Per-character action of `replace(/[^a-zA-Z0-9_]/g, "_")`: characters in
the class are kept, all others become `'_'`. -/
def normalizeChar (c : Char) : Char :=
  if isWordChar c then c else '_'

/-- The catalog database name derivation
`props.dbName.replace(/[^a-zA-Z0-9_]/g, "_")` (source line 275): every
character outside `[A-Za-z0-9_]` is replaced by `'_'`. -/
def normalizeDbName (s : String) : String :=
  String.mk (s.data.map normalizeChar)

/-- The per-condition export mode of the `DB_SNAPSHOT_TYPES` entry (source
line 258): `"cluster-snapshot"` for the Aurora cluster automated event,
`"snapshot"` otherwise. -/
def exportMode (id : RdsEventId) : String :=
  if id == RdsEventId.DB_AUTOMATED_AURORA_SNAPSHOT_CREATED then
    "cluster-snapshot"
  else
    "snapshot"

/-- `props.rdsEvents.map(e => e.rdsEventId)` as a list of the enum string
values (the inner list of the `RDS_EVENT_IDS` entry, source line 251). -/
def rdsEventIdsList (rdsEvents : List RdsSnapshot) : List String :=
  rdsEvents.map (fun rdsEvent => rdsEvent.rdsEventId.code)

/-- `props.rdsEvents.map(e => e.rdsSnapshotType)` as a list of the enum
string values (the inner list of the `RDS_SNAPSHOT_TYPES` entry, source
line 252). -/
def rdsSnapshotTypesList (rdsEvents : List RdsSnapshot) : List String :=
  rdsEvents.map (fun rdsEvent => rdsEvent.rdsSnapshotType.code)

/-- `props.rdsEvents.map(e => e.rdsEventId == DB_AUTOMATED_AURORA_SNAPSHOT_CREATED
? "cluster-snapshot" : "snapshot")` (the inner list of the
`DB_SNAPSHOT_TYPES` entry, source line 258). -/
def dbSnapshotTypesList (rdsEvents : List RdsSnapshot) : List String :=
  rdsEvents.map (fun rdsEvent => exportMode rdsEvent.rdsEventId)

/-- One statement of an IAM identity policy document.  A JSON `Action` or
`Resource` that is a single string in the source is modelled as a
singleton list. -/
structure IamStatement where
  actions : List String
  resources : List String
  effect : String
deriving DecidableEq

/-- One IAM role of the stack: trust principal, inline policy (name and
statements) and attached managed policies. -/
structure RoleSpec where
  assumedBy : String
  description : String
  inlinePolicyName : String
  statements : List IamStatement
  managedPolicies : List String
deriving DecidableEq

/-- One statement of the KMS key policy: AWS principals, actions, resource,
optional condition (operator, condition key, value) and effect. -/
structure KeyPolicyStatement where
  principalAWS : List String
  actions : List String
  resource : String
  condition : Option (String × String × Bool)
  effect : String
deriving DecidableEq

/-- The `aws_kms.Key` of the stack: alias and policy document. -/
structure KeySpec where
  keyAlias : String
  policyStatements : List KeyPolicyStatement
deriving DecidableEq

/-- The `aws_s3.Bucket` of the stack. -/
structure BucketSpec where
  bucketName : String
  blockPublicAccess : String
deriving DecidableEq

/-- The environment block of the exporter `aws_lambda.Function`
(source lines 250-259). -/
structure LambdaEnvironment where
  RDS_EVENT_IDS : String
  RDS_SNAPSHOT_TYPES : String
  DB_NAME : String
  LOG_LEVEL : String
  SNAPSHOT_BUCKET_NAME : String
  SNAPSHOT_TASK_ROLE : String
  SNAPSHOT_TASK_KEY : String
  DB_SNAPSHOT_TYPES : String
deriving DecidableEq

/-- The exporter `aws_lambda.Function` of the stack. -/
structure LambdaFunctionSpec where
  functionName : String
  runtime : String
  handler : String
  environment : LambdaEnvironment
  role : String
  timeoutSeconds : Nat
  eventSourceTopics : List String
deriving DecidableEq

/-- The `aws_glue.CfnCrawler` of the stack. -/
structure CrawlerSpec where
  name : String
  role : String
  s3TargetPaths : List String
  databaseName : String
  deleteBehavior : String
deriving DecidableEq

/-- All resources declared by the `RdsSnapshotExportPipelineStack`
constructor. -/
structure PipelineStack where
  bucket : BucketSpec
  snapshotExportTaskRole : RoleSpec
  lambdaExecutionRole : RoleSpec
  snapshotExportGlueCrawlerRole : RoleSpec
  snapshotExportEncryptionKey : KeySpec
  snapshotEventTopicDisplayName : String
  subscriptions : List SubscriptionSpec
  lambdaFunction : LambdaFunctionSpec
  crawler : CrawlerSpec
deriving DecidableEq

/-- The `RdsSnapshotExportPipelineStack` constructor (source lines 76-280),
as a pure function of the deployment descriptor and the provider-resolved
identities. -/
def mkStack (props : RdsSnapshotExportPipelineStackProps) (arns : StackArns) :
    PipelineStack :=
  { bucket :=
      { bucketName := props.s3BucketName
        blockPublicAccess := "BLOCK_ALL" }
    snapshotExportTaskRole :=
      { assumedBy := "export.rds.amazonaws.com"
        description := "Role used by RDS to perform snapshot exports to S3"
        inlinePolicyName := "SnapshotExportTaskPolicy"
        statements :=
          [{ actions := ["s3:PutObject*", "s3:ListBucket", "s3:GetObject*",
                         "s3:DeleteObject*", "s3:GetBucketLocation"]
             resources := [arns.bucketArn, arns.bucketArn ++ "/*"]
             effect := "Allow" }]
        managedPolicies := [] }
    lambdaExecutionRole :=
      { assumedBy := "lambda.amazonaws.com"
        description := "RdsSnapshotExportToS3 Lambda execution role for the \"" ++
          props.dbName ++ "\" database."
        inlinePolicyName := "SnapshotExporterLambdaPolicy"
        statements :=
          [{ actions := ["rds:StartExportTask", "rds:DescribeDBSnapshots"]
             resources := ["*"]
             effect := "Allow" },
           { actions := ["iam:PassRole"]
             resources := [arns.taskRoleArn]
             effect := "Allow" }]
        managedPolicies := ["service-role/AWSLambdaBasicExecutionRole"] }
    snapshotExportGlueCrawlerRole :=
      { assumedBy := "glue.amazonaws.com"
        description := "Role used by RDS to perform snapshot exports to S3"
        inlinePolicyName := "SnapshotExportsGlueCrawlerPolicy"
        statements :=
          [{ actions := ["s3:GetObject", "s3:PutObject"]
             resources := [arns.bucketArn ++ "/*"]
             effect := "Allow" }]
        managedPolicies := ["service-role/AWSGlueServiceRole"] }
    snapshotExportEncryptionKey :=
      { keyAlias := props.dbName ++ "-snapshot-exports"
        policyStatements :=
          [{ principalAWS := [arns.accountRootArn]
             actions := ["kms:*"]
             resource := "*"
             condition := none
             effect := "Allow" },
           { principalAWS := [arns.lambdaRoleArn, arns.crawlerRoleArn]
             actions := ["kms:Encrypt", "kms:Decrypt", "kms:ReEncrypt*",
                         "kms:GenerateDataKey*", "kms:DescribeKey"]
             resource := "*"
             condition := none
             effect := "Allow" },
           { principalAWS := [arns.lambdaRoleArn]
             actions := ["kms:CreateGrant", "kms:ListGrants", "kms:RevokeGrant"]
             resource := "*"
             condition := some ("Bool", "kms:GrantIsForAWSResource", true)
             effect := "Allow" }] }
    snapshotEventTopicDisplayName := "rds-snapshot-creation"
    subscriptions := eventSubscriptions arns.topicArn props.rdsEvents
    lambdaFunction :=
      { functionName := props.dbName ++ "-rds-snapshot-exporter"
        runtime := "PYTHON_3_8"
        handler := "main.handler"
        environment :=
          { RDS_EVENT_IDS := newArrayWrapJoin (rdsEventIdsList props.rdsEvents)
            RDS_SNAPSHOT_TYPES := newArrayWrapJoin (rdsSnapshotTypesList props.rdsEvents)
            DB_NAME := props.dbName
            LOG_LEVEL := "INFO"
            SNAPSHOT_BUCKET_NAME := props.s3BucketName
            SNAPSHOT_TASK_ROLE := arns.taskRoleArn
            SNAPSHOT_TASK_KEY := arns.keyArn
            DB_SNAPSHOT_TYPES := newArrayWrapJoin (dbSnapshotTypesList props.rdsEvents) }
        role := arns.lambdaRoleArn
        timeoutSeconds := 30
        eventSourceTopics := [arns.topicArn] }
    crawler :=
      { name := props.dbName ++ "-rds-snapshot-crawler"
        role := arns.crawlerRoleArn
        s3TargetPaths := [props.s3BucketName]
        databaseName := normalizeDbName props.dbName
        deleteBehavior := "DELETE_FROM_DATABASE" } }

/-- The deployment descriptor of `bin/cdk.ts`. -/
def cdkAppProps : RdsSnapshotExportPipelineStackProps :=
  { s3BucketName := "db-mysql-main-2023-06-07"
    dbName := "db-mysql-main"
    rdsEvents :=
      [{ rdsEventId := RdsEventId.DB_AUTOMATED_SNAPSHOT_CREATED
         rdsSnapshotType := RdsSnapshotType.DB_AUTOMATED_SNAPSHOT },
       { rdsEventId := RdsEventId.DB_MANUAL_SNAPSHOT_CREATED
         rdsSnapshotType := RdsSnapshotType.DB_MANUAL_SNAPSHOT },
       { rdsEventId := RdsEventId.DB_BACKUP_SNAPSHOT_FINISHED_COPY
         rdsSnapshotType := RdsSnapshotType.DB_BACKUP_SNAPSHOT }] }

/-- A concrete set of provider-resolved identities, used only to instantiate
universally quantified theorems in witnesses. -/
def sampleArns : StackArns :=
  { accountRootArn := "arn:aws:iam::123456789012:root"
    bucketArn := "arn:aws:s3:::db-mysql-main-2023-06-07"
    taskRoleArn := "arn:aws:iam::123456789012:role/SnapshotExportTaskRole"
    lambdaRoleArn := "arn:aws:iam::123456789012:role/RdsSnapshotExporterLambdaExecutionRole"
    crawlerRoleArn := "arn:aws:iam::123456789012:role/SnapshotExportsGlueCrawlerRole"
    keyArn := "arn:aws:kms:us-east-1:123456789012:key/11111111-2222-3333-4444-555555555555"
    topicArn := "arn:aws:sns:us-east-1:123456789012:SnapshotEventTopic" }

/-- Joining a one-element list inserts no separator. -/
theorem intercalate_singleton (s a : String) : String.intercalate s [a] = a :=
  rfl

/-- Unfolding the wrapped join: it is the plain comma-join of the list. -/
theorem newArrayWrapJoin_eq (xs : List String) :
    newArrayWrapJoin xs = String.intercalate "," xs := by
  unfold newArrayWrapJoin jsArrayToString
  exact intercalate_singleton "," (String.intercalate "," xs)

/-- The per-character replacement is idempotent: kept characters are in the
word class, and the replacement character `'_'` is too. -/
theorem normalizeChar_idem (c : Char) :
    normalizeChar (normalizeChar c) = normalizeChar c := by
  by_cases h : isWordChar c
  · simp [normalizeChar, h]
  · simp only [normalizeChar, h]
    norm_num

/-- Claim C9: the catalog database name derivation replaces every character
of `databaseName` outside `[A-Za-z0-9_]` with `"_"`; it is deterministic and
idempotent, and `"db-mysql-main"` normalizes to `"db_mysql_main"`, which is
a fixed point. -/
theorem catalog_db_name_normalization (props : RdsSnapshotExportPipelineStackProps)
    (arns : StackArns) :
    (mkStack props arns).crawler.databaseName = normalizeDbName props.dbName ∧
    (∀ s t : String, s = t → normalizeDbName s = normalizeDbName t) ∧
    (∀ s : String, normalizeDbName (normalizeDbName s) = normalizeDbName s) ∧
    normalizeDbName "db-mysql-main" = "db_mysql_main" ∧
    normalizeDbName "db_mysql_main" = "db_mysql_main" := by
  refine ⟨rfl, fun s t h => h ▸ rfl, fun s => ?_, by decide, by decide⟩
  simp [normalizeDbName, List.map_map, Function.comp_def, normalizeChar_idem]

/-- Witness for C9 at concrete inputs. -/
theorem catalog_db_name_normalization_witness :
    normalizeDbName "db-mysql-main" = normalizeDbName "db-mysql-main" ∧
    normalizeDbName (normalizeDbName "a.b c") = normalizeDbName "a.b c" :=
  ⟨(catalog_db_name_normalization cdkAppProps sampleArns).2.1 "db-mysql-main"
      "db-mysql-main" rfl,
   (catalog_db_name_normalization cdkAppProps sampleArns).2.2.1 "a.b c"⟩

/-- Claim C10: the environment serialization the stack uses — wrapping the
mapped list in a one-element outer array and joining with no separator —
produces, for every rule set (and in fact for every list of strings), the
same string as the straightforward comma-join of the mapped list. -/
theorem array_wrap_join_equals_plain_join (rdsEvents : List RdsSnapshot) :
    newArrayWrapJoin (rdsEventIdsList rdsEvents) =
      straightforwardJoin (rdsEventIdsList rdsEvents) ∧
    newArrayWrapJoin (rdsSnapshotTypesList rdsEvents) =
      straightforwardJoin (rdsSnapshotTypesList rdsEvents) ∧
    newArrayWrapJoin (dbSnapshotTypesList rdsEvents) =
      straightforwardJoin (dbSnapshotTypesList rdsEvents) ∧
    ∀ xs : List String, newArrayWrapJoin xs = straightforwardJoin xs :=
  ⟨newArrayWrapJoin_eq _, newArrayWrapJoin_eq _, newArrayWrapJoin_eq _,
   fun xs => newArrayWrapJoin_eq xs⟩

/-- Claim C8: the export mode of a condition is `"cluster-snapshot"` exactly
when its event identifier is the Aurora cluster automated event
`RDS-EVENT-0169`, `"snapshot"` for every other identifier, and it depends
only on the event identifier (the snapshot classification plays no role);
the stack's `DB_SNAPSHOT_TYPES` entry is built from exactly this
derivation. -/
theorem export_mode_solely_by_event_id (props : RdsSnapshotExportPipelineStackProps)
    (arns : StackArns) :
    (mkStack props arns).lambdaFunction.environment.DB_SNAPSHOT_TYPES =
      newArrayWrapJoin (props.rdsEvents.map (fun e => exportMode e.rdsEventId)) ∧
    (∀ id : RdsEventId,
      exportMode id = "cluster-snapshot" ↔
        id = RdsEventId.DB_AUTOMATED_AURORA_SNAPSHOT_CREATED) ∧
    (∀ id : RdsEventId,
      id ≠ RdsEventId.DB_AUTOMATED_AURORA_SNAPSHOT_CREATED → exportMode id = "snapshot") ∧
    (∀ e1 e2 : RdsSnapshot,
      e1.rdsEventId = e2.rdsEventId →
        exportMode e1.rdsEventId = exportMode e2.rdsEventId) := by
  refine ⟨rfl, fun id => ?_, fun id h => ?_, fun e1 e2 h => h ▸ rfl⟩
  · cases id <;> simp [exportMode]
  · cases id
    · exact absurd rfl h
    all_goals rfl

/-- Witness for C8 at concrete inputs. -/
theorem export_mode_solely_by_event_id_witness :
    exportMode RdsEventId.DB_MANUAL_SNAPSHOT_CREATED = "snapshot" ∧
    exportMode (RdsSnapshot.mk RdsEventId.DB_AUTOMATED_SNAPSHOT_CREATED
        RdsSnapshotType.DB_AUTOMATED_SNAPSHOT).rdsEventId =
      exportMode (RdsSnapshot.mk RdsEventId.DB_AUTOMATED_SNAPSHOT_CREATED
        RdsSnapshotType.DB_MANUAL_SNAPSHOT).rdsEventId :=
  ⟨(export_mode_solely_by_event_id cdkAppProps sampleArns).2.2.1
      RdsEventId.DB_MANUAL_SNAPSHOT_CREATED (by decide),
   (export_mode_solely_by_event_id cdkAppProps sampleArns).2.2.2 _ _ rfl⟩

/-- Claim C3: the three inner lists serialized into the Export Trigger
environment (`RDS_EVENT_IDS`, `RDS_SNAPSHOT_TYPES`, `DB_SNAPSHOT_TYPES`)
all have length equal to the rule set's, and at every index the entry of
each list is derived from the condition at the same index of the rule
set. -/
theorem env_lists_length_and_alignment (props : RdsSnapshotExportPipelineStackProps)
    (arns : StackArns) :
    (mkStack props arns).lambdaFunction.environment.RDS_EVENT_IDS =
      newArrayWrapJoin (rdsEventIdsList props.rdsEvents) ∧
    (mkStack props arns).lambdaFunction.environment.RDS_SNAPSHOT_TYPES =
      newArrayWrapJoin (rdsSnapshotTypesList props.rdsEvents) ∧
    (mkStack props arns).lambdaFunction.environment.DB_SNAPSHOT_TYPES =
      newArrayWrapJoin (dbSnapshotTypesList props.rdsEvents) ∧
    (rdsEventIdsList props.rdsEvents).length = props.rdsEvents.length ∧
    (rdsSnapshotTypesList props.rdsEvents).length = props.rdsEvents.length ∧
    (dbSnapshotTypesList props.rdsEvents).length = props.rdsEvents.length ∧
    (∀ i : Nat, (rdsEventIdsList props.rdsEvents)[i]? =
      (props.rdsEvents[i]?).map (fun e => e.rdsEventId.code)) ∧
    (∀ i : Nat, (rdsSnapshotTypesList props.rdsEvents)[i]? =
      (props.rdsEvents[i]?).map (fun e => e.rdsSnapshotType.code)) ∧
    (∀ i : Nat, (dbSnapshotTypesList props.rdsEvents)[i]? =
      (props.rdsEvents[i]?).map (fun e => exportMode e.rdsEventId)) := by
  refine ⟨rfl, rfl, rfl, ?_, ?_, ?_, fun i => ?_, fun i => ?_, fun i => ?_⟩ <;>
    simp [rdsEventIdsList, rdsSnapshotTypesList, dbSnapshotTypesList]

/-- Claim C4: the key policy always opens with the statement granting the
deploying account's root principal all `kms:*` actions with no condition,
whatever the descriptor (in particular whatever the rule set) contains. -/
theorem key_policy_root_statement_always_present
    (props : RdsSnapshotExportPipelineStackProps) (arns : StackArns) :
    (mkStack props arns).snapshotExportEncryptionKey.policyStatements.head? =
      some { principalAWS := [arns.accountRootArn], actions := ["kms:*"],
             resource := "*", condition := none, effect := "Allow" } ∧
    ∃ st ∈ (mkStack props arns).snapshotExportEncryptionKey.policyStatements,
      st.principalAWS = [arns.accountRootArn] ∧ st.actions = ["kms:*"] ∧
      st.condition = none ∧ st.effect = "Allow" :=
  ⟨rfl,
   ⟨{ principalAWS := [arns.accountRootArn], actions := ["kms:*"],
      resource := "*", condition := none, effect := "Allow" },
    List.mem_cons_self _ _, rfl, rfl, rfl, rfl⟩⟩

/-- Claim C5: in the Lambda execution role, the `iam:PassRole` statement
names exactly the export-task role's ARN as its only resource, every
statement mentioning `iam:PassRole` is so scoped, and the same ARN is the
`SNAPSHOT_TASK_ROLE` environment entry of the Export Trigger. -/
theorem passRole_scoped_and_env_consistent
    (props : RdsSnapshotExportPipelineStackProps) (arns : StackArns) :
    (∃ st ∈ (mkStack props arns).lambdaExecutionRole.statements,
      st.actions = ["iam:PassRole"] ∧ st.resources = [arns.taskRoleArn]) ∧
    (∀ st ∈ (mkStack props arns).lambdaExecutionRole.statements,
      "iam:PassRole" ∈ st.actions → st.resources = [arns.taskRoleArn]) ∧
    (mkStack props arns).lambdaFunction.environment.SNAPSHOT_TASK_ROLE =
      arns.taskRoleArn := by
  refine ⟨⟨{ actions := ["iam:PassRole"], resources := [arns.taskRoleArn],
             effect := "Allow" }, ?_, rfl, rfl⟩, ?_, rfl⟩
  · simp [mkStack]
  · intro st hst hact
    simp only [mkStack, List.mem_cons, List.mem_singleton] at hst
    rcases hst with h | h | h
    · subst h; simp at hact
    · subst h; rfl
    · cases h

/-- Witness for C5 at concrete inputs. -/
theorem passRole_scoped_and_env_consistent_witness :
    (mkStack cdkAppProps sampleArns).lambdaFunction.environment.SNAPSHOT_TASK_ROLE =
      sampleArns.taskRoleArn ∧
    ({ actions := ["iam:PassRole"], resources := [sampleArns.taskRoleArn],
       effect := "Allow" } : IamStatement).resources = [sampleArns.taskRoleArn] :=
  ⟨(passRole_scoped_and_env_consistent cdkAppProps sampleArns).2.2,
   (passRole_scoped_and_env_consistent cdkAppProps sampleArns).2.1
     { actions := ["iam:PassRole"], resources := [sampleArns.taskRoleArn],
       effect := "Allow" }
     (by simp [mkStack]) (by simp)⟩

/-- The resolver's membership test: `any` of an event-identifier equality
holds exactly when the rule set contains a condition with that
identifier. -/
theorem any_eventId_iff (id : RdsEventId) (rdsEvents : List RdsSnapshot) :
    rdsEvents.any (fun rdsEvent => rdsEvent.rdsEventId == id) = true ↔
      ∃ e ∈ rdsEvents, e.rdsEventId = id := by
  simp [List.any_eq_true]

/-- Counterexample to C1: on the empty rule set (which contains no condition
matching any pattern), the resolver still emits one subscription — the
unconditional else-branch of the first ternary — rather than zero. -/
theorem empty_ruleset_emits_one_subscription :
    eventSubscriptions "topicArn" [] ≠ [] ∧
    (eventSubscriptions "topicArn" []).length = 1 := by
  constructor
  · decide
  · rfl

/-- Claim C1 as amended: for every rule set containing neither an
Aurora-cluster-automated condition nor a backup-finished-copy condition (in
particular the empty rule set), the resolver emits exactly one
SubscriptionSpec — the `db-snapshot`/`creation` one — and no error
occurs. -/
theorem no_special_condition_one_creation_subscription (topicArn : String)
    (rdsEvents : List RdsSnapshot)
    (h : ∀ e ∈ rdsEvents,
      e.rdsEventId ≠ RdsEventId.DB_AUTOMATED_AURORA_SNAPSHOT_CREATED ∧
      e.rdsEventId ≠ RdsEventId.DB_BACKUP_SNAPSHOT_FINISHED_COPY) :
    eventSubscriptions topicArn rdsEvents =
      [{ logicalId := "RdsSnapshotEventNotification", snsTopicArn := topicArn,
         enabled := true, eventCategories := ["creation"],
         sourceType := "db-snapshot" }] := by
  have ha : ¬ rdsEvents.any
      (fun e => e.rdsEventId == RdsEventId.DB_AUTOMATED_AURORA_SNAPSHOT_CREATED) = true := by
    rw [any_eventId_iff]
    rintro ⟨e, he, heq⟩
    exact (h e he).1 heq
  have hc : ¬ rdsEvents.any
      (fun e => e.rdsEventId == RdsEventId.DB_BACKUP_SNAPSHOT_FINISHED_COPY) = true := by
    rw [any_eventId_iff]
    rintro ⟨e, he, heq⟩
    exact (h e he).2 heq
  unfold eventSubscriptions
  rw [if_neg ha, if_neg hc, List.append_nil]

/-- Witness for amended C1 at the empty rule set. -/
theorem no_special_condition_one_creation_subscription_witness :
    eventSubscriptions "topicArn" [] =
      [{ logicalId := "RdsSnapshotEventNotification", snsTopicArn := "topicArn",
         enabled := true, eventCategories := ["creation"],
         sourceType := "db-snapshot" }] :=
  no_special_condition_one_creation_subscription "topicArn" [] (by decide)

/-- Counterexample to C2: on the `bin/cdk.ts` rule set (automated + manual +
backup-finished-copy, no Aurora condition) the resolver emits two
subscriptions that both have sourceType `"db-snapshot"`. -/
theorem two_subscriptions_share_sourceType :
    (eventSubscriptions "topicArn" cdkAppProps.rdsEvents).map
      (fun s => s.sourceType) = ["db-snapshot", "db-snapshot"] :=
  rfl

/-- Claim C2 as amended: the resolver never emits two SubscriptionSpecs with
both the same sourceType and the same eventCategories; two emitted specs may
share sourceType `"db-snapshot"` (creation-class plus notification), but
they always differ in sourceType or in eventCategories. -/
theorem subscriptions_distinct_type_and_categories (topicArn : String)
    (rdsEvents : List RdsSnapshot) :
    (eventSubscriptions topicArn rdsEvents).Pairwise
      (fun a b => a.sourceType ≠ b.sourceType ∨
        a.eventCategories ≠ b.eventCategories) := by
  unfold eventSubscriptions
  by_cases ha : rdsEvents.any
      (fun e => e.rdsEventId == RdsEventId.DB_AUTOMATED_AURORA_SNAPSHOT_CREATED) = true <;>
  by_cases hc : rdsEvents.any
      (fun e => e.rdsEventId == RdsEventId.DB_BACKUP_SNAPSHOT_FINISHED_COPY) = true <;>
  simp [ha, hc, List.pairwise_cons]

/-- Claim C6: a rule set with a backup-finished-copy condition makes the
resolver emit the additional `db-snapshot`/`{notification}` subscription,
coexisting with the always-emitted creation-class subscription (two specs in
total); without that condition no notification-category subscription is
emitted. -/
theorem backup_copy_notification_subscription (topicArn : String)
    (rdsEvents : List RdsSnapshot) :
    ((∃ e ∈ rdsEvents, e.rdsEventId = RdsEventId.DB_BACKUP_SNAPSHOT_FINISHED_COPY) →
      ({ logicalId := "RdsBackupCopyEventNotification", snsTopicArn := topicArn,
         enabled := true, eventCategories := ["notification"],
         sourceType := "db-snapshot" } : SubscriptionSpec) ∈
        eventSubscriptions topicArn rdsEvents ∧
      (eventSubscriptions topicArn rdsEvents).length = 2) ∧
    ((∀ e ∈ rdsEvents, e.rdsEventId ≠ RdsEventId.DB_BACKUP_SNAPSHOT_FINISHED_COPY) →
      ∀ s ∈ eventSubscriptions topicArn rdsEvents,
        s.eventCategories ≠ ["notification"]) := by
  constructor
  · intro h
    have hany : rdsEvents.any
        (fun e => e.rdsEventId == RdsEventId.DB_BACKUP_SNAPSHOT_FINISHED_COPY) = true :=
      (any_eventId_iff _ _).mpr h
    unfold eventSubscriptions
    rw [if_pos hany]
    refine ⟨List.mem_append_right _ (List.mem_singleton.mpr rfl), ?_⟩
    by_cases ha : rdsEvents.any
        (fun e => e.rdsEventId == RdsEventId.DB_AUTOMATED_AURORA_SNAPSHOT_CREATED) = true
    · rw [if_pos ha]; rfl
    · rw [if_neg ha]; rfl
  · intro h s hs
    have hany : ¬ rdsEvents.any
        (fun e => e.rdsEventId == RdsEventId.DB_BACKUP_SNAPSHOT_FINISHED_COPY) = true := by
      rw [any_eventId_iff]
      rintro ⟨e, he, heq⟩
      exact h e he heq
    unfold eventSubscriptions at hs
    rw [if_neg hany, List.append_nil] at hs
    by_cases ha : rdsEvents.any
        (fun e => e.rdsEventId == RdsEventId.DB_AUTOMATED_AURORA_SNAPSHOT_CREATED) = true
    · rw [if_pos ha, List.mem_singleton] at hs
      subst hs
      simp
    · rw [if_neg ha, List.mem_singleton] at hs
      subst hs
      simp

/-- Witness for C6: the notification spec is emitted for the `bin/cdk.ts`
rule set alongside the creation spec, and a rule set without the copy
condition gives its creation spec a non-notification category. -/
theorem backup_copy_notification_subscription_witness :
    (({ logicalId := "RdsBackupCopyEventNotification", snsTopicArn := "topicArn",
        enabled := true, eventCategories := ["notification"],
        sourceType := "db-snapshot" } : SubscriptionSpec) ∈
      eventSubscriptions "topicArn" cdkAppProps.rdsEvents ∧
      (eventSubscriptions "topicArn" cdkAppProps.rdsEvents).length = 2) ∧
    ({ logicalId := "RdsSnapshotEventNotification", snsTopicArn := "topicArn",
       enabled := true, eventCategories := ["creation"],
       sourceType := "db-snapshot" } : SubscriptionSpec).eventCategories ≠
      ["notification"] :=
  ⟨(backup_copy_notification_subscription "topicArn" cdkAppProps.rdsEvents).1
      (by decide),
   (backup_copy_notification_subscription "topicArn" []).2 (by decide)
      { logicalId := "RdsSnapshotEventNotification", snsTopicArn := "topicArn",
        enabled := true, eventCategories := ["creation"],
        sourceType := "db-snapshot" }
      (by decide)⟩

/-- Claim C7: a rule set with an Aurora-cluster-automated condition makes
the resolver emit the `db-cluster-snapshot`/`{backup}` subscription and no
`db-snapshot`/`{creation}` subscription. -/
theorem aurora_condition_cluster_subscription (topicArn : String)
    (rdsEvents : List RdsSnapshot)
    (h : ∃ e ∈ rdsEvents,
      e.rdsEventId = RdsEventId.DB_AUTOMATED_AURORA_SNAPSHOT_CREATED) :
    ({ logicalId := "RdsSnapshotEventNotification", snsTopicArn := topicArn,
       enabled := true, eventCategories := ["backup"],
       sourceType := "db-cluster-snapshot" } : SubscriptionSpec) ∈
      eventSubscriptions topicArn rdsEvents ∧
    ∀ s ∈ eventSubscriptions topicArn rdsEvents,
      ¬(s.sourceType = "db-snapshot" ∧ s.eventCategories = ["creation"]) := by
  have hany : rdsEvents.any
      (fun e => e.rdsEventId == RdsEventId.DB_AUTOMATED_AURORA_SNAPSHOT_CREATED) = true :=
    (any_eventId_iff _ _).mpr h
  unfold eventSubscriptions
  rw [if_pos hany]
  constructor
  · exact List.mem_append_left _ (List.mem_singleton.mpr rfl)
  · intro s hs hcontra
    rcases List.mem_append.mp hs with h1 | h2
    · rw [List.mem_singleton] at h1
      subst h1
      exact absurd hcontra.1 (by simp)
    · by_cases hc : rdsEvents.any
          (fun e => e.rdsEventId == RdsEventId.DB_BACKUP_SNAPSHOT_FINISHED_COPY) = true
      · rw [if_pos hc, List.mem_singleton] at h2
        subst h2
        exact absurd hcontra.2 (by simp)
      · rw [if_neg hc] at h2
        cases h2

/-- Witness for C7 at a one-condition Aurora rule set. -/
theorem aurora_condition_cluster_subscription_witness :
    ({ logicalId := "RdsSnapshotEventNotification", snsTopicArn := "topicArn",
       enabled := true, eventCategories := ["backup"],
       sourceType := "db-cluster-snapshot" } : SubscriptionSpec) ∈
      eventSubscriptions "topicArn"
        [{ rdsEventId := RdsEventId.DB_AUTOMATED_AURORA_SNAPSHOT_CREATED,
           rdsSnapshotType := RdsSnapshotType.DB_AUTOMATED_SNAPSHOT }] :=
  (aurora_condition_cluster_subscription "topicArn"
    [{ rdsEventId := RdsEventId.DB_AUTOMATED_AURORA_SNAPSHOT_CREATED,
       rdsSnapshotType := RdsSnapshotType.DB_AUTOMATED_SNAPSHOT }]
    (by decide)).1

end RdsPipeline
